import Mathlib

/-!
The n2-examples: the response-files demo and the circle-area calculator.

A shallow embedding of the two C programs `n2-examples/06-response-files/src/main.c`
and `n2-examples/03-depfiles/main.c`.  Every function the programs call is declared
but not defined in the sources, so each one is a field of an environment record and
acts on an explicit world state of arbitrary type.  The sequence of calls a program
makes is observed by wrapping the environment in a recorder.

The build orchestrator that the specification describes around these examples has
no source among the given files; it is modelled from the specification's text in
the namespace `Orchestrator`.
-/

namespace N2Examples

/-- A value of C type `double`: a finite value (held as a rational), a signed zero,
an infinity or a NaN.  Every IEEE double is one of these. -/
inductive CDouble
  | finite (q : ℚ)
  | negZero
  | posInf
  | negInf
  | nan
  deriving DecidableEq

/-- A variadic argument handed to `printf`. -/
inductive CArg
  | int (v : Int)
  | double (v : CDouble)
  deriving DecidableEq

/-! ## `06-response-files/src/main.c` -/

namespace ResponseFiles

/-- The functions declared at lines 3-13 of `main.c` together with `printf`; each
takes the world state and gives it back, with the returned value when the C
function has one. -/
structure Env (σ : Type) where
  add : Int → Int → σ → Int × σ
  subtract : Int → Int → σ → Int × σ
  multiply : Int → Int → σ → Int × σ
  divide : Int → Int → σ → Int × σ
  modulo : Int → Int → σ → Int × σ
  print_header : String → σ → σ
  print_separator : σ → σ
  print_result : String → Int → σ → σ
  printf : String → List CArg → σ → Int × σ

/-- The function `main` of `06-response-files/src/main.c`, lines 15-36: the exit
status and the final world state. -/
def main {σ : Type} (E : Env σ) (s0 : σ) : Int × σ :=
  let a : Int := 20
  let b : Int := 7
  let s1 := E.print_header "Response File Demo" s0
  let p1 := E.printf "This program was built using response files!\n" [] s1
  let p2 := E.printf "Check libmath.a.rsp and program_rsp.rsp to see them.\n" [] p1.2
  let s2 := E.print_separator p2.2
  let p3 := E.printf "Computing with a=%d, b=%d:\n" [CArg.int a, CArg.int b] s2
  let r1 := E.add a b p3.2
  let s3 := E.print_result "a + b" r1.1 r1.2
  let r2 := E.subtract a b s3
  let s4 := E.print_result "a - b" r2.1 r2.2
  let r3 := E.multiply a b s4
  let s5 := E.print_result "a * b" r3.1 r3.2
  let r4 := E.divide a b s5
  let s6 := E.print_result "a / b" r4.1 r4.2
  let r5 := E.modulo a b s6
  let s7 := E.print_result "a % b" r5.1 r5.2
  let s8 := E.print_separator s7
  let p4 := E.printf "Build system: n2\n" [] s8
  let p5 := E.printf "Response files prevent 'Argument list too long' errors!\n" [] p4.2
  (0, p5.2)

/-- One call made by `main`, with its arguments and, for a function that returns
a value, the value that call returned. -/
inductive Event
  | add (a b r : Int)
  | subtract (a b r : Int)
  | multiply (a b r : Int)
  | divide (a b r : Int)
  | modulo (a b r : Int)
  | print_header (title : String)
  | print_separator
  | print_result (op : String) (r : Int)
  | printf (fmt : String) (args : List CArg) (ret : Int)
  deriving DecidableEq

/-- The environment `E` with a recorder attached: every function does what it does
in `E` and appends the call to the log. -/
def logged {σ : Type} (E : Env σ) : Env (σ × List Event) where
  add a b w := ((E.add a b w.1).1, (E.add a b w.1).2, w.2 ++ [Event.add a b (E.add a b w.1).1])
  subtract a b w :=
    ((E.subtract a b w.1).1, (E.subtract a b w.1).2,
      w.2 ++ [Event.subtract a b (E.subtract a b w.1).1])
  multiply a b w :=
    ((E.multiply a b w.1).1, (E.multiply a b w.1).2,
      w.2 ++ [Event.multiply a b (E.multiply a b w.1).1])
  divide a b w :=
    ((E.divide a b w.1).1, (E.divide a b w.1).2,
      w.2 ++ [Event.divide a b (E.divide a b w.1).1])
  modulo a b w :=
    ((E.modulo a b w.1).1, (E.modulo a b w.1).2,
      w.2 ++ [Event.modulo a b (E.modulo a b w.1).1])
  print_header title w := (E.print_header title w.1, w.2 ++ [Event.print_header title])
  print_separator w := (E.print_separator w.1, w.2 ++ [Event.print_separator])
  print_result op r w := (E.print_result op r w.1, w.2 ++ [Event.print_result op r])
  printf fmt args w :=
    ((E.printf fmt args w.1).1, (E.printf fmt args w.1).2,
      w.2 ++ [Event.printf fmt args (E.printf fmt args w.1).1])

/-- The calls `main` makes, in order, when run in environment `E` from state `s0`. -/
def callTrace {σ : Type} (E : Env σ) (s0 : σ) : List Event :=
  (main (logged E) (s0, [])).2.2

/-- The `(label, value)` pairs handed to `print_result`, in order. -/
def printedResults : List Event → List (String × Int)
  | [] => []
  | Event.print_result op r :: t => (op, r) :: printedResults t
  | _ :: t => printedResults t

/-- Whether the event is a call of one of the five arithmetic functions. -/
def Event.isArith : Event → Bool
  | Event.add _ _ _ => true
  | Event.subtract _ _ _ => true
  | Event.multiply _ _ _ => true
  | Event.divide _ _ _ => true
  | Event.modulo _ _ _ => true
  | _ => false

/-- The operand pair of an arithmetic call. -/
def Event.operands : Event → Option (Int × Int)
  | Event.add a b _ => some (a, b)
  | Event.subtract a b _ => some (a, b)
  | Event.multiply a b _ => some (a, b)
  | Event.divide a b _ => some (a, b)
  | Event.modulo a b _ => some (a, b)
  | _ => none

/-- The four output functions of an environment, without the arithmetic library. -/
structure Util (σ : Type) where
  print_header : String → σ → σ
  print_separator : σ → σ
  print_result : String → Int → σ → σ
  printf : String → List CArg → σ → Int × σ

/-- Least value of the C type `int` (32 bits, two's complement). -/
def INT_MIN : Int := -2147483648

/-- Greatest value of the C type `int`. -/
def INT_MAX : Int := 2147483647

/-- Reduction of an exact integer to the 32-bit two's-complement value with the
same low 32 bits. -/
def wrapInt (x : Int) : Int := (x + 2147483648) % 4294967296 - 2147483648

/-- What the arithmetic library records about its own execution: how often the
division-by-zero branch ran and how often an exact result fell outside `int`. -/
structure LibFlags where
  zeroGuard : Nat
  overflow : Nat
  deriving DecidableEq

/-- Return the exact result `x` as an `int`: unchanged when it fits, otherwise
reduced to 32 bits with the overflow recorded. -/
def ret32 {σ : Type} (x : Int) (w : σ × LibFlags) : Int × σ × LibFlags :=
  if INT_MIN ≤ x ∧ x ≤ INT_MAX then (x, w)
  else (wrapInt x, w.1, LibFlags.mk w.2.zeroGuard (w.2.overflow + 1))

/-- The division-by-zero branch of `divide` and `modulo`: the call is recorded and
gives 0. -/
def zeroBranch {σ : Type} (w : σ × LibFlags) : Int × σ × LibFlags :=
  (0, w.1, LibFlags.mk (w.2.zeroGuard + 1) w.2.overflow)

/-- Modelled from the spec: the five "already-defined arithmetic functions" of
`libmath.a`, declared at lines 4-8 of `main.c` and defined outside the given
sources, taken as the C `int` operators
`+`, `-`, `*`, truncating `/` and `%`, the last two guarded against a zero divisor.
The output functions are those of `U` and leave the flags alone. -/
def cEnv {σ : Type} (U : Util σ) : Env (σ × LibFlags) where
  add a b w := ret32 (a + b) w
  subtract a b w := ret32 (a - b) w
  multiply a b w := ret32 (a * b) w
  divide a b w := if b = 0 then zeroBranch w else ret32 (Int.tdiv a b) w
  modulo a b w := if b = 0 then zeroBranch w else ret32 (Int.tmod a b) w
  print_header title w := (U.print_header title w.1, w.2)
  print_separator w := (U.print_separator w.1, w.2)
  print_result op r w := (U.print_result op r w.1, w.2)
  printf fmt args w := ((U.printf fmt args w.1).1, (U.printf fmt args w.1).2, w.2)

/-- The environment whose arithmetic functions are the side-effect-free functions
`add … modulo` and whose output functions are those of `U`. -/
def pureEnv {σ : Type} (add subtract multiply divide modulo : Int → Int → Int)
    (U : Util σ) : Env σ where
  add a b w := (add a b, w)
  subtract a b w := (subtract a b, w)
  multiply a b w := (multiply a b, w)
  divide a b w := (divide a b, w)
  modulo a b w := (modulo a b, w)
  print_header := U.print_header
  print_separator := U.print_separator
  print_result := U.print_result
  printf := U.printf

/-- Whether the event is a call of `divide` or `modulo` with a zero divisor. -/
def Event.zeroDivisor : Event → Bool
  | Event.divide _ b _ => b == 0
  | Event.modulo _ b _ => b == 0
  | _ => false

/-- The divisor of a `divide` or `modulo` call. -/
def Event.divisor : Event → Option Int
  | Event.divide _ b _ => some b
  | Event.modulo _ b _ => some b
  | _ => none

/-- Whether the value lies in the range of the C type `int`. -/
def inIntRange (x : Int) : Bool := decide (INT_MIN ≤ x) && decide (x ≤ INT_MAX)

end ResponseFiles

/-! ## `03-depfiles/main.c` -/

namespace Depfiles

/-- The function `circle_area` of `geometry.h`, which is not among the given
sources, together with `printf`. -/
structure Env (σ : Type) where
  circle_area : CDouble → σ → CDouble × σ
  printf : String → List CArg → σ → Int × σ

/-- The function `main` of `03-depfiles/main.c`, lines 4-15: the exit status and
the final world state. -/
def main {σ : Type} (E : Env σ) (s0 : σ) : Int × σ :=
  let p1 := E.printf "Circle Area Calculator\n" [] s0
  let p2 := E.printf "======================\n\n" [] p1.2
  let radius : CDouble := CDouble.finite 5
  let area := E.circle_area radius p2.2
  let p3 := E.printf "Radius: %.2f\n" [CArg.double radius] area.2
  let p4 := E.printf "Area: %.2f\n" [CArg.double area.1] p3.2
  (0, p4.2)

/-- One call made by `main`, with its arguments and the value the call returned. -/
inductive Event
  | circle_area (x r : CDouble)
  | printf (fmt : String) (args : List CArg) (ret : Int)
  deriving DecidableEq

/-- The environment `E` with a recorder attached. -/
def logged {σ : Type} (E : Env σ) : Env (σ × List Event) where
  circle_area x w :=
    ((E.circle_area x w.1).1, (E.circle_area x w.1).2,
      w.2 ++ [Event.circle_area x (E.circle_area x w.1).1])
  printf fmt args w :=
    ((E.printf fmt args w.1).1, (E.printf fmt args w.1).2,
      w.2 ++ [Event.printf fmt args (E.printf fmt args w.1).1])

/-- The calls `main` makes, in order, when run in environment `E` from state `s0`. -/
def callTrace {σ : Type} (E : Env σ) (s0 : σ) : List Event :=
  (main (logged E) (s0, [])).2.2

/-- Whether the event is a call of `circle_area`. -/
def Event.isCircleArea : Event → Bool
  | Event.circle_area _ _ => true
  | _ => false

end Depfiles

/-! ## The build orchestrator described by the specification

None of the orchestrator is among the sources; the definitions of this section are
written from the specification's sections 3, 4 and 7. -/

namespace Orchestrator

/-- Modelled from the spec: the Build Node of section 3, which has no source here:
output path, command template, static input paths, dynamic input paths and the
last recorded build signature (`none` while the node has never been built). -/
structure BuildNode where
  output : String
  command : String
  staticInputs : List String
  dynamicInputs : List String
  signature : Option Nat
  deriving DecidableEq

/-- Modelled from the spec: the Depfile Record of section 3, which has no source
here: an output path and the ordered sequence of its input paths. -/
structure DepfileRecord where
  output : String
  inputs : List String
  deriving DecidableEq

/-- Modelled from the spec: the inputs of a node, static together with dynamic
(section 4.4, "any input (static or dynamic)"); the node type has no source here. -/
def BuildNode.inputs (n : BuildNode) : List String :=
  n.staticInputs ++ n.dynamicInputs

/-- Modelled from the spec: the dirty test of the Scheduler/Executor (section 4.4),
which has no source here.  A node is dirty if it has never been built, or if some
input has a modification signature newer than the recorded build signature;
`sig` gives the current modification signature of a path. -/
def isDirty (sig : String → Nat) (n : BuildNode) : Bool :=
  match n.signature with
  | none => true
  | some built => n.inputs.any fun p => decide (built < sig p)

/-- Modelled from the spec: the merge of one depfile record into one node by the
Graph Builder (section 4.2), which has no source here.  The record of the node's
own output replaces the dynamic input set; it is not united with the old one. -/
def mergeNode (r : DepfileRecord) (n : BuildNode) : BuildNode :=
  if n.output = r.output then
    BuildNode.mk n.output n.command n.staticInputs r.inputs n.signature
  else n

/-- Modelled from the spec: the merge of one depfile record into the graph
(section 4.2); the Graph Builder has no source here. -/
def mergeDepfile (g : List BuildNode) (r : DepfileRecord) : List BuildNode :=
  g.map (mergeNode r)

/-- Modelled from the spec: the command handed to the Response-File Writer
(section 4.3), which has no source here: the tool and its arguments. -/
structure Command where
  tool : String
  args : List String
  deriving DecidableEq

/-- Modelled from the spec: the "full argument text" of a command (section 4.3);
the writer has no source here. -/
def Command.argText (c : Command) : String :=
  " ".intercalate c.args

/-- Modelled from the spec: the "assembled command line" of section 4.3; the
writer has no source here. -/
def Command.assembled (c : Command) : String :=
  " ".intercalate (c.tool :: c.args)

/-- Modelled from the spec: the Response File of section 3, which has no source
here: a temporary path paired with the verbatim argument text it replaces. -/
structure ResponseFile where
  path : String
  content : String
  deriving DecidableEq

/-- Modelled from the spec: what the Response-File Writer hands on (section 4.3;
no source here): the command line to invoke and the response file written for it,
if any. -/
structure Invocation where
  line : String
  responseFile : Option ResponseFile
  deriving DecidableEq

/-- Modelled from the spec: the Response-File Writer of section 4.3, which has no
source here.  If the assembled command line exceeds the threshold, the full
argument text goes to the fresh temporary file `tmp` and the indirection marker
`@tmp` takes its place; otherwise the command line is used as it is. -/
def externalize (threshold : Nat) (tmp : String) (c : Command) : Invocation :=
  if threshold < c.assembled.length then
    Invocation.mk (c.tool ++ " @" ++ tmp) (some (ResponseFile.mk tmp c.argText))
  else
    Invocation.mk c.assembled none

/-- Modelled from the spec: whether the invocation was rewritten to use a response
file (section 8); the writer has no source here. -/
def Invocation.usesResponseFile (i : Invocation) : Bool :=
  i.responseFile.isSome

/-- A command whose assembled line has exactly `n` characters. -/
def commandOfLength (n : Nat) : Command :=
  Command.mk (String.mk (List.replicate n 'x')) []

/-- Modelled from the spec: the error taxonomy of section 7; no component that
raises these has source here. -/
inductive BuildError
  | ParseError
  | CycleError
  | ExecutionError (output : String) (status : Nat)
  | IOError
  deriving DecidableEq

/-- Modelled from the spec: an edge of the merged graph (section 4.2; no source
here): node `m` of `g` depends on node `n` of `g` when the output of `n` is among
the inputs of `m`. -/
def dependsOn (g : List BuildNode) (m n : BuildNode) : Prop :=
  m ∈ g ∧ n ∈ g ∧ n.output ∈ m.inputs

/-- Modelled from the spec: the graph has a cycle when some node reaches itself
along one or more dependency edges. -/
def HasCycle (g : List BuildNode) : Prop :=
  ∃ n, Relation.TransGen (dependsOn g) n n

/-- Modelled from the spec: a node has an unmet dependency among the remaining
nodes `rem` when one of them produces an input of it (section 5: a node is ready
exactly when its unmet-dependency count is zero); no scheduler source is given. -/
def unmet (rem : List BuildNode) (n : BuildNode) : Bool :=
  rem.any fun m => decide (m.output ∈ n.inputs)

/-- Modelled from the spec: one round of the ready-queue discipline of section 5:
the ready nodes leave, the nodes with an unmet dependency remain. -/
def prune (rem : List BuildNode) : List BuildNode :=
  rem.filter (unmet rem)

/-- Modelled from the spec: `k` rounds of `prune`. -/
def pruneN : Nat → List BuildNode → List BuildNode
  | 0, rem => rem
  | k + 1, rem => pruneN k (prune rem)

/-- Modelled from the spec: the cycle detection of the Graph Builder (section 4.2),
which has no source here and whose method the specification leaves open: after as
many rounds as there are nodes, nodes that never became ready are on or behind a
cycle. -/
def detectCycle (g : List BuildNode) : Bool :=
  !(pruneN g.length g).isEmpty

/-- Modelled from the spec: the Graph Builder of section 4.2, which has no source
here: merge the depfile record into the static graph and fail with a `CycleError`
if the merged graph has a cycle. -/
def buildGraph (g : List BuildNode) (r : DepfileRecord) :
    Except BuildError (List BuildNode) :=
  if detectCycle (mergeDepfile g r) then Except.error BuildError.CycleError
  else Except.ok (mergeDepfile g r)

/-- Modelled from the spec: an execution order consistent with topological order
(section 4.4): round after round, the nodes that are ready. -/
def topoOrder : Nat → List BuildNode → List BuildNode
  | 0, _ => []
  | k + 1, rem => (rem.filter fun n => !unmet rem n) ++ topoOrder k (prune rem)

/-- Modelled from the spec: the Scheduler/Executor of section 4.4 run with one
worker; no source is given.  The commands of the dirty nodes run in order, `exec`
giving the exit status of a command; a non-zero status is an `ExecutionError` and
no further node is started.  The first component is the list of commands run. -/
def execute (exec : String → Nat) (sig : String → Nat) :
    List BuildNode → List String × Except BuildError Unit
  | [] => ([], Except.ok ())
  | n :: rest =>
    if isDirty sig n then
      if exec n.command = 0 then
        (n.command :: (execute exec sig rest).1, (execute exec sig rest).2)
      else
        ([n.command], Except.error (BuildError.ExecutionError n.output (exec n.command)))
    else execute exec sig rest

/-- Modelled from the spec: one build invocation (sections 2 and 7; no source is
given): the graph is built first, a graph error aborts the invocation at once, and
only a graph without error is handed to the executor.  The first component is the
list of commands that ran. -/
def build (exec : String → Nat) (sig : String → Nat) (g : List BuildNode)
    (r : DepfileRecord) : List String × Except BuildError Unit :=
  match buildGraph g r with
  | Except.error e => ([], Except.error e)
  | Except.ok merged => execute exec sig (topoOrder merged.length merged)

/-- A two-node graph: the object `main.o` is compiled from `main.c` and the
generated header `geometry.h`; the header is generated from `geometry.def`. -/
def sampleGraph : List BuildNode :=
  [BuildNode.mk "main.o" "cc -c main.c" ["main.c", "geometry.h"] [] none,
   BuildNode.mk "geometry.h" "gen geometry.def" ["geometry.def"] [] none]

/-- A depfile record claiming that `geometry.h` was produced from `main.o`. -/
def cyclicRecord : DepfileRecord :=
  DepfileRecord.mk "geometry.h" ["main.o"]

/-- A depfile record for `main.o` listing the headers the compiler read. -/
def plainRecord : DepfileRecord :=
  DepfileRecord.mk "main.o" ["geometry.h", "stdio.h"]

end Orchestrator

end N2Examples

namespace N2Examples

/-! ## Theorems about the response-files demo -/

namespace ResponseFiles

/-- The recorder does not change what `main` computes: exit status and final world
state are those of the plain environment. -/
theorem main_logged {σ : Type} (E : Env σ) (s0 : σ) :
    (main (logged E) (s0, [])).1 = (main E s0).1 ∧
      (main (logged E) (s0, [])).2.1 = (main E s0).2 := by
  simp only [main, logged, and_self]

/-- The full call sequence of `main`: the world states `t1 … t5` are the ones in
which the five arithmetic calls are made. -/
theorem callTrace_eq {σ : Type} (E : Env σ) (s0 : σ) :
    ∃ t1 t2 t3 t4 t5 : σ, ∃ q1 q2 q3 q4 q5 : Int,
      callTrace E s0 =
        [Event.print_header "Response File Demo",
         Event.printf "This program was built using response files!\n" [] q1,
         Event.printf "Check libmath.a.rsp and program_rsp.rsp to see them.\n" [] q2,
         Event.print_separator,
         Event.printf "Computing with a=%d, b=%d:\n" [CArg.int 20, CArg.int 7] q3,
         Event.add 20 7 (E.add 20 7 t1).1,
         Event.print_result "a + b" (E.add 20 7 t1).1,
         Event.subtract 20 7 (E.subtract 20 7 t2).1,
         Event.print_result "a - b" (E.subtract 20 7 t2).1,
         Event.multiply 20 7 (E.multiply 20 7 t3).1,
         Event.print_result "a * b" (E.multiply 20 7 t3).1,
         Event.divide 20 7 (E.divide 20 7 t4).1,
         Event.print_result "a / b" (E.divide 20 7 t4).1,
         Event.modulo 20 7 (E.modulo 20 7 t5).1,
         Event.print_result "a % b" (E.modulo 20 7 t5).1,
         Event.print_separator,
         Event.printf "Build system: n2\n" [] q4,
         Event.printf "Response files prevent 'Argument list too long' errors!\n" [] q5] := by
  simp only [callTrace, main, logged, List.nil_append, List.cons_append,
    List.singleton_append]
  exact ⟨_, _, _, _, _, _, _, _, _, _, rfl⟩

/-- Truncating division of 20 by 7. -/
theorem tdiv_20_7 : Int.tdiv 20 7 = 2 := by decide

/-- Remainder of the truncating division of 20 by 7. -/
theorem tmod_20_7 : Int.tmod 20 7 = 6 := by decide

/-- The C operators on the operands of `main`: each returns the exact result and
leaves the world state, flags included, as it was. -/
theorem cEnv_at_20_7 {σ : Type} (U : Util σ) (w : σ × LibFlags) :
    (cEnv U).add 20 7 w = (27, w) ∧ (cEnv U).subtract 20 7 w = (13, w) ∧
      (cEnv U).multiply 20 7 w = (140, w) ∧ (cEnv U).divide 20 7 w = (2, w) ∧
      (cEnv U).modulo 20 7 w = (6, w) := by
  simp [cEnv, ret32, INT_MIN, INT_MAX, tdiv_20_7, tmod_20_7]

/-- The values handed to `print_result` when the arithmetic library is the C
operators: the exact results, whatever the output functions and the flags. -/
theorem printedResults_cEnv {σ : Type} (U : Util σ) (s0 : σ) (f : LibFlags) :
    printedResults (callTrace (cEnv U) (s0, f)) =
      [("a + b", 27), ("a - b", 13), ("a * b", 140), ("a / b", 2), ("a % b", 6)] := by
  obtain ⟨t1, t2, t3, t4, t5, q1, q2, q3, q4, q5, h⟩ := callTrace_eq (cEnv U) (s0, f)
  rw [h, (cEnv_at_20_7 U t1).1, (cEnv_at_20_7 U t2).2.1, (cEnv_at_20_7 U t3).2.2.1,
    (cEnv_at_20_7 U t4).2.2.2.1, (cEnv_at_20_7 U t5).2.2.2.2]
  rfl

/-- C1: for every environment and initial state, `main` makes exactly the calls
listed, in this order: `print_result` five times, each time with the label of an
operator and the value the matching arithmetic function returned on `(20, 7)`;
each arithmetic function once; all ten calls between the two `print_separator`
calls that follow `print_header "Response File Demo"`.  When the arithmetic
functions are side-effect-free parameters the printed pairs are
`("a + b", add 20 7)`, …, `("a % b", modulo 20 7)`. -/
theorem main_print_result_calls :
    (∀ (σ : Type) (E : Env σ) (s0 : σ),
      ∃ t1 t2 t3 t4 t5 : σ, ∃ q1 q2 q3 q4 q5 : Int,
        callTrace E s0 =
          [Event.print_header "Response File Demo",
           Event.printf "This program was built using response files!\n" [] q1,
           Event.printf "Check libmath.a.rsp and program_rsp.rsp to see them.\n" [] q2,
           Event.print_separator,
           Event.printf "Computing with a=%d, b=%d:\n" [CArg.int 20, CArg.int 7] q3,
           Event.add 20 7 (E.add 20 7 t1).1,
           Event.print_result "a + b" (E.add 20 7 t1).1,
           Event.subtract 20 7 (E.subtract 20 7 t2).1,
           Event.print_result "a - b" (E.subtract 20 7 t2).1,
           Event.multiply 20 7 (E.multiply 20 7 t3).1,
           Event.print_result "a * b" (E.multiply 20 7 t3).1,
           Event.divide 20 7 (E.divide 20 7 t4).1,
           Event.print_result "a / b" (E.divide 20 7 t4).1,
           Event.modulo 20 7 (E.modulo 20 7 t5).1,
           Event.print_result "a % b" (E.modulo 20 7 t5).1,
           Event.print_separator,
           Event.printf "Build system: n2\n" [] q4,
           Event.printf "Response files prevent 'Argument list too long' errors!\n" [] q5] ∧
        printedResults (callTrace E s0) =
          [("a + b", (E.add 20 7 t1).1), ("a - b", (E.subtract 20 7 t2).1),
           ("a * b", (E.multiply 20 7 t3).1), ("a / b", (E.divide 20 7 t4).1),
           ("a % b", (E.modulo 20 7 t5).1)]) ∧
    (∀ (σ : Type) (add subtract multiply divide modulo : Int → Int → Int) (U : Util σ)
        (s0 : σ),
      printedResults (callTrace (pureEnv add subtract multiply divide modulo U) s0) =
          [("a + b", add 20 7), ("a - b", subtract 20 7), ("a * b", multiply 20 7),
           ("a / b", divide 20 7), ("a % b", modulo 20 7)] ∧
        (callTrace (pureEnv add subtract multiply divide modulo U) s0).filter Event.isArith =
          [Event.add 20 7 (add 20 7), Event.subtract 20 7 (subtract 20 7),
           Event.multiply 20 7 (multiply 20 7), Event.divide 20 7 (divide 20 7),
           Event.modulo 20 7 (modulo 20 7)]) := by
  refine ⟨fun σ E s0 => ?_, fun σ add subtract multiply divide modulo U s0 => ?_⟩
  · obtain ⟨t1, t2, t3, t4, t5, q1, q2, q3, q4, q5, h⟩ := callTrace_eq E s0
    exact ⟨t1, t2, t3, t4, t5, q1, q2, q3, q4, q5, h, by rw [h]; rfl⟩
  · obtain ⟨t1, t2, t3, t4, t5, q1, q2, q3, q4, q5, h⟩ :=
      callTrace_eq (pureEnv add subtract multiply divide modulo U) s0
    rw [h]
    exact ⟨rfl, rfl⟩

/-- C7: in every run of `main` both `divide` and `modulo` receive the divisor 7,
never 0; with the arithmetic library taken as the guarded C `int` operators the
library flags come back unchanged (the division-by-zero branch did not run and no
exact result fell outside `int`), and each of the five printed results lies in
the range of `int`. -/
theorem division_guard_unreachable :
    (∀ (σ : Type) (E : Env σ) (s0 : σ),
      (callTrace E s0).filterMap Event.divisor = [7, 7] ∧
        (callTrace E s0).any Event.zeroDivisor = false) ∧
    (∀ (σ : Type) (U : Util σ) (s0 : σ) (f : LibFlags),
      (main (cEnv U) (s0, f)).2.2 = f ∧
        (printedResults (callTrace (cEnv U) (s0, f))).length = 5 ∧
        (printedResults (callTrace (cEnv U) (s0, f))).all (fun p => inIntRange p.2) = true) := by
  refine ⟨fun σ E s0 => ?_, fun σ U s0 f => ⟨?_, ?_⟩⟩
  · obtain ⟨t1, t2, t3, t4, t5, q1, q2, q3, q4, q5, h⟩ := callTrace_eq E s0
    rw [h]
    exact ⟨rfl, rfl⟩
  · simp only [main, (cEnv_at_20_7 U _).1, (cEnv_at_20_7 U _).2.1, (cEnv_at_20_7 U _).2.2.1,
      (cEnv_at_20_7 U _).2.2.2.1, (cEnv_at_20_7 U _).2.2.2.2]
    simp [cEnv]
  · rw [printedResults_cEnv]
    exact ⟨rfl, by decide⟩

/-- C8: with the arithmetic library taken as the C `int` operators, the five values
`main` hands to `print_result` are 27, 13, 140, 2 and 6 in this order, and the
quotient and remainder it obtains satisfy `divide(20,7) * 7 + modulo(20,7) = 20`. -/
theorem printed_values_with_c_operators :
    ∀ (σ : Type) (U : Util σ) (s0 : σ) (f : LibFlags),
      printedResults (callTrace (cEnv U) (s0, f)) =
          [("a + b", 27), ("a - b", 13), ("a * b", 140), ("a / b", 2), ("a % b", 6)] ∧
        (∀ w : σ × LibFlags,
          ((cEnv U).divide 20 7 w).1 * 7 + ((cEnv U).modulo 20 7 w).1 = 20) := by
  intro σ U s0 f
  refine ⟨printedResults_cEnv U s0 f, fun w => ?_⟩
  rw [(cEnv_at_20_7 U w).2.2.2.1, (cEnv_at_20_7 U w).2.2.2.2]
  show (2 : Int) * 7 + 6 = 20
  decide

/-- C9: the call trace of `main` splits at the announcement
`printf "Computing with a=%d, b=%d:\n"`, whose arguments are 20 and 7 in this
order; no arithmetic call comes before it, and the five arithmetic calls after it
all receive the operand pair `(20, 7)`, first operand first. -/
theorem announced_operands_are_passed :
    ∀ (σ : Type) (E : Env σ) (s0 : σ),
      ∃ (pre post : List Event) (q : Int),
        callTrace E s0 =
          pre ++ Event.printf "Computing with a=%d, b=%d:\n" [CArg.int 20, CArg.int 7] q
            :: post ∧
        pre.filter Event.isArith = [] ∧
        (post.filter Event.isArith).map Event.operands =
          [some (20, 7), some (20, 7), some (20, 7), some (20, 7), some (20, 7)] ∧
        post.filterMap Event.operands = [(20, 7), (20, 7), (20, 7), (20, 7), (20, 7)] := by
  intro σ E s0
  obtain ⟨t1, t2, t3, t4, t5, q1, q2, q3, q4, q5, h⟩ := callTrace_eq E s0
  refine ⟨[Event.print_header "Response File Demo",
      Event.printf "This program was built using response files!\n" [] q1,
      Event.printf "Check libmath.a.rsp and program_rsp.rsp to see them.\n" [] q2,
      Event.print_separator], _, q3, h, rfl, rfl, rfl⟩

end ResponseFiles

/-! ## Theorems about the circle-area calculator -/

namespace Depfiles

/-- The recorder does not change what `main` computes. -/
theorem depfiles_main_logged {σ : Type} (E : Env σ) (s0 : σ) :
    (main (logged E) (s0, [])).1 = (main E s0).1 ∧
      (main (logged E) (s0, [])).2.1 = (main E s0).2 := by
  simp only [main, logged, and_self]

/-- The full call sequence of `main`: `t` is the world state in which
`circle_area` is called. -/
theorem depfiles_callTrace_eq {σ : Type} (E : Env σ) (s0 : σ) :
    ∃ (t : σ) (q1 q2 q3 q4 : Int),
      callTrace E s0 =
        [Event.printf "Circle Area Calculator\n" [] q1,
         Event.printf "======================\n\n" [] q2,
         Event.circle_area (CDouble.finite 5) (E.circle_area (CDouble.finite 5) t).1,
         Event.printf "Radius: %.2f\n" [CArg.double (CDouble.finite 5)] q3,
         Event.printf "Area: %.2f\n" [CArg.double (E.circle_area (CDouble.finite 5) t).1] q4] := by
  simp only [callTrace, main, logged, List.nil_append, List.cons_append,
    List.singleton_append]
  exact ⟨_, _, _, _, _, rfl⟩

/-- C2: for every environment and initial state, `main` makes exactly these five
calls, in this order: the two header prints, one call of `circle_area` on 5.0, the
`"Radius: %.2f"` print of the same 5.0, and the `"Area: %.2f"` print of the value
that call of `circle_area` returned. -/
theorem main_circle_area_calls :
    ∀ (σ : Type) (E : Env σ) (s0 : σ),
      ∃ (t : σ) (area : CDouble) (q1 q2 q3 q4 : Int),
        area = (E.circle_area (CDouble.finite 5) t).1 ∧
        callTrace E s0 =
          [Event.printf "Circle Area Calculator\n" [] q1,
           Event.printf "======================\n\n" [] q2,
           Event.circle_area (CDouble.finite 5) area,
           Event.printf "Radius: %.2f\n" [CArg.double (CDouble.finite 5)] q3,
           Event.printf "Area: %.2f\n" [CArg.double area] q4] ∧
        (callTrace E s0).filter Event.isCircleArea =
          [Event.circle_area (CDouble.finite 5) area] := by
  intro σ E s0
  obtain ⟨t, q1, q2, q3, q4, h⟩ := depfiles_callTrace_eq E s0
  exact ⟨t, _, q1, q2, q3, q4, rfl, h, by rw [h]; rfl⟩

end Depfiles

/-- C3: neither program has a failure path.  For every environment (so for every
value the called functions return and every value `printf` reports) and every
initial state, each `main` runs every statement of its source in source order and
then returns exit status 0: the recorded run makes exactly the 5 calls of the
circle-area calculator, resp. the 18 calls of the response-files demo, each
`printf` event carrying the value that `printf` call returned and each arithmetic
result the value that call returned; the recorded run ends in the same exit
status and world state as the plain run. -/
theorem mains_return_zero :
    (∀ (σ : Type) (E : Depfiles.Env σ) (s0 : σ),
      (Depfiles.main E s0).1 = 0 ∧
      (Depfiles.main (Depfiles.logged E) (s0, [])).1 = (Depfiles.main E s0).1 ∧
      (Depfiles.main (Depfiles.logged E) (s0, [])).2.1 = (Depfiles.main E s0).2 ∧
      ∃ u2 t u3 u4 : σ,
        Depfiles.callTrace E s0 =
          [Depfiles.Event.printf "Circle Area Calculator\n" []
             (E.printf "Circle Area Calculator\n" [] s0).1,
           Depfiles.Event.printf "======================\n\n" []
             (E.printf "======================\n\n" [] u2).1,
           Depfiles.Event.circle_area (CDouble.finite 5)
             (E.circle_area (CDouble.finite 5) t).1,
           Depfiles.Event.printf "Radius: %.2f\n" [CArg.double (CDouble.finite 5)]
             (E.printf "Radius: %.2f\n" [CArg.double (CDouble.finite 5)] u3).1,
           Depfiles.Event.printf "Area: %.2f\n"
             [CArg.double (E.circle_area (CDouble.finite 5) t).1]
             (E.printf "Area: %.2f\n"
               [CArg.double (E.circle_area (CDouble.finite 5) t).1] u4).1]) ∧
    (∀ (σ : Type) (E : ResponseFiles.Env σ) (s0 : σ),
      (ResponseFiles.main E s0).1 = 0 ∧
      (ResponseFiles.main (ResponseFiles.logged E) (s0, [])).1 =
        (ResponseFiles.main E s0).1 ∧
      (ResponseFiles.main (ResponseFiles.logged E) (s0, [])).2.1 =
        (ResponseFiles.main E s0).2 ∧
      ∃ u1 u2 u3 t1 t2 t3 t4 t5 u4 u5 : σ,
        ResponseFiles.callTrace E s0 =
          [ResponseFiles.Event.print_header "Response File Demo",
           ResponseFiles.Event.printf "This program was built using response files!\n" []
             (E.printf "This program was built using response files!\n" [] u1).1,
           ResponseFiles.Event.printf
             "Check libmath.a.rsp and program_rsp.rsp to see them.\n" []
             (E.printf "Check libmath.a.rsp and program_rsp.rsp to see them.\n" [] u2).1,
           ResponseFiles.Event.print_separator,
           ResponseFiles.Event.printf "Computing with a=%d, b=%d:\n"
             [CArg.int 20, CArg.int 7]
             (E.printf "Computing with a=%d, b=%d:\n" [CArg.int 20, CArg.int 7] u3).1,
           ResponseFiles.Event.add 20 7 (E.add 20 7 t1).1,
           ResponseFiles.Event.print_result "a + b" (E.add 20 7 t1).1,
           ResponseFiles.Event.subtract 20 7 (E.subtract 20 7 t2).1,
           ResponseFiles.Event.print_result "a - b" (E.subtract 20 7 t2).1,
           ResponseFiles.Event.multiply 20 7 (E.multiply 20 7 t3).1,
           ResponseFiles.Event.print_result "a * b" (E.multiply 20 7 t3).1,
           ResponseFiles.Event.divide 20 7 (E.divide 20 7 t4).1,
           ResponseFiles.Event.print_result "a / b" (E.divide 20 7 t4).1,
           ResponseFiles.Event.modulo 20 7 (E.modulo 20 7 t5).1,
           ResponseFiles.Event.print_result "a % b" (E.modulo 20 7 t5).1,
           ResponseFiles.Event.print_separator,
           ResponseFiles.Event.printf "Build system: n2\n" []
             (E.printf "Build system: n2\n" [] u4).1,
           ResponseFiles.Event.printf
             "Response files prevent 'Argument list too long' errors!\n" []
             (E.printf "Response files prevent 'Argument list too long' errors!\n" []
               u5).1]) := by
  refine ⟨fun σ E s0 => ⟨rfl, (Depfiles.depfiles_main_logged E s0).1,
      (Depfiles.depfiles_main_logged E s0).2, ?_⟩,
    fun σ E s0 => ⟨rfl, (ResponseFiles.main_logged E s0).1,
      (ResponseFiles.main_logged E s0).2, ?_⟩⟩
  · simp only [Depfiles.callTrace, Depfiles.main, Depfiles.logged, List.nil_append,
      List.cons_append, List.singleton_append]
    exact ⟨_, _, _, _, rfl⟩
  · simp only [ResponseFiles.callTrace, ResponseFiles.main, ResponseFiles.logged,
      List.nil_append, List.cons_append, List.singleton_append]
    exact ⟨_, _, _, _, _, _, _, _, _, _, rfl⟩

end N2Examples

namespace N2Examples

/-! ## Theorems about the orchestrator as the specification describes it -/

namespace Orchestrator

/-- The assembled line of `commandOfLength n` has `n` characters. -/
theorem commandOfLength_length (n : Nat) : (commandOfLength n).assembled.length = n := by
  show (List.replicate n 'x').length = n
  exact List.length_replicate n 'x'

/-- C4: the externalize decision is a strict threshold test.  For every threshold,
temporary path and command, the command is rewritten to use a response file
exactly when its assembled length exceeds the threshold: above the threshold the
line becomes the tool followed by the indirection marker and the argument text is
in the file, at or below it the assembled line is used unchanged.  At length
`threshold + 1` the command is rewritten, at one below the threshold it is not. -/
theorem externalize_strict_threshold :
    ∀ (threshold : Nat) (tmp : String),
      (∀ c : Command,
        ((externalize threshold tmp c).usesResponseFile = true ↔
          threshold < c.assembled.length) ∧
        ((externalize threshold tmp c).usesResponseFile = false ↔
          c.assembled.length ≤ threshold) ∧
        (externalize threshold tmp c =
            Invocation.mk (c.tool ++ " @" ++ tmp) (some (ResponseFile.mk tmp c.argText)) ∨
          externalize threshold tmp c = Invocation.mk c.assembled none)) ∧
      ((commandOfLength (threshold + 1)).assembled.length = threshold + 1 ∧
        (externalize threshold tmp (commandOfLength (threshold + 1))).usesResponseFile
          = true) ∧
      ((commandOfLength threshold).assembled.length + 1 = threshold + 1 ∧
        (externalize (threshold + 1) tmp (commandOfLength threshold)).usesResponseFile
          = false) := by
  intro threshold tmp
  have key : ∀ c : Command,
      (externalize threshold tmp c).usesResponseFile =
        decide (threshold < c.assembled.length) := by
    intro c
    unfold externalize Invocation.usesResponseFile
    by_cases h : threshold < c.assembled.length <;> simp [h]
  refine ⟨fun c => ⟨?_, ?_, ?_⟩, ⟨commandOfLength_length _, ?_⟩, ⟨?_, ?_⟩⟩
  · rw [key c]; simp
  · rw [key c]; simp
  · unfold externalize
    by_cases h : threshold < c.assembled.length <;> simp [h]
  · unfold externalize Invocation.usesResponseFile
    simp [commandOfLength_length]
  · rw [commandOfLength_length]
  · unfold externalize Invocation.usesResponseFile
    simp [commandOfLength_length]

/-- C5: a node is reported dirty if and only if some input, static or dynamic, has
a modification signature newer than the node's recorded build signature, or the
node has no recorded build; and after two depfile merges for the node's output the
dynamic inputs that count are those of the later record only. -/
theorem dirty_iff_newer_input_or_unbuilt :
    (∀ (sig : String → Nat) (n : BuildNode),
      isDirty sig n = true ↔
        (∃ p built, (p ∈ n.staticInputs ∨ p ∈ n.dynamicInputs) ∧
          n.signature = some built ∧ built < sig p) ∨
        n.signature = none) ∧
    (∀ (sig : String → Nat) (n : BuildNode) (older newer : List String),
      isDirty sig
          (mergeNode (DepfileRecord.mk n.output newer)
            (mergeNode (DepfileRecord.mk n.output older) n)) = true ↔
        (∃ p built, (p ∈ n.staticInputs ∨ p ∈ newer) ∧
          n.signature = some built ∧ built < sig p) ∨
        n.signature = none) := by
  have key : ∀ (sig : String → Nat) (n : BuildNode),
      isDirty sig n = true ↔
        (∃ p built, (p ∈ n.staticInputs ∨ p ∈ n.dynamicInputs) ∧
          n.signature = some built ∧ built < sig p) ∨
        n.signature = none := by
    intro sig n
    unfold isDirty BuildNode.inputs
    cases hs : n.signature with
    | none => simp
    | some built =>
      simp only [List.any_eq_true, List.mem_append, decide_eq_true_eq, Option.some.injEq,
        reduceCtorEq, or_false]
      constructor
      · rintro ⟨p, hp, hlt⟩
        exact ⟨p, built, hp, rfl, hlt⟩
      · rintro ⟨p, b, hp, hb, hlt⟩
        exact ⟨p, hp, hb ▸ hlt⟩
  refine ⟨key, fun sig n older newer => ?_⟩
  rw [key]
  simp [mergeNode]

/-- A node on a cycle belongs to the graph. -/
theorem mem_of_onCycle {g : List BuildNode} {n : BuildNode}
    (h : Relation.TransGen (dependsOn g) n n) : n ∈ g := by
  obtain ⟨m, hm, _⟩ := Relation.TransGen.head'_iff.mp h
  exact hm.1

/-- A node on a cycle depends on a node that is on a cycle too. -/
theorem next_onCycle {g : List BuildNode} {n : BuildNode}
    (h : Relation.TransGen (dependsOn g) n n) :
    ∃ m, dependsOn g n m ∧ Relation.TransGen (dependsOn g) m m := by
  obtain ⟨m, hnm, hmn⟩ := Relation.TransGen.head'_iff.mp h
  exact ⟨m, hnm, Relation.TransGen.tail' hmn hnm⟩

/-- No round of pruning removes a node that is on a cycle. -/
theorem onCycle_mem_pruneN {g : List BuildNode} (k : Nat) :
    ∀ rem : List BuildNode,
      (∀ n, Relation.TransGen (dependsOn g) n n → n ∈ rem) →
        ∀ n, Relation.TransGen (dependsOn g) n n → n ∈ pruneN k rem := by
  induction k with
  | zero => intro rem h n hn; exact h n hn
  | succ k ih =>
    intro rem h n hn
    refine ih (prune rem) (fun x hx => ?_) n hn
    obtain ⟨m, hxm, hm⟩ := next_onCycle hx
    unfold prune
    rw [List.mem_filter]
    refine ⟨h x hx, ?_⟩
    unfold unmet
    rw [List.any_eq_true]
    exact ⟨m, h m hm, by simpa using hxm.2.2⟩

/-- The cycle detection misses no cycle. -/
theorem detectCycle_of_hasCycle {g : List BuildNode} (h : HasCycle g) :
    detectCycle g = true := by
  obtain ⟨n, hn⟩ := h
  have hmem : n ∈ pruneN g.length g :=
    onCycle_mem_pruneN g.length g (fun x hx => mem_of_onCycle hx) n hn
  unfold detectCycle
  cases hp : pruneN g.length g with
  | nil => rw [hp] at hmem; cases hmem
  | cons a t => rfl

/-- Pruning the empty list leaves it empty. -/
theorem pruneN_nil (k : Nat) : pruneN k [] = [] := by
  induction k with
  | zero => rfl
  | succ k ih => exact ih

/-- If nodes remain after at least as many rounds as there were nodes, some
non-empty list of them is left unchanged by a round of pruning. -/
theorem exists_fixpoint (k : Nat) :
    ∀ rem : List BuildNode, rem.length ≤ k → pruneN k rem ≠ [] →
      ∃ fix : List BuildNode, fix ≠ [] ∧ prune fix = fix ∧ ∀ x ∈ fix, x ∈ rem := by
  induction k with
  | zero =>
    intro rem hlen hne
    exact absurd (List.length_eq_zero.mp (Nat.le_zero.mp hlen)) hne
  | succ k ih =>
    intro rem hlen hne
    by_cases hfix : prune rem = rem
    · refine ⟨rem, ?_, hfix, fun x hx => hx⟩
      intro hnil
      rw [hnil] at hne
      exact hne (pruneN_nil (k + 1))
    · have hsub : List.Sublist (prune rem) rem := List.filter_sublist rem
      have hlt : (prune rem).length < rem.length :=
        lt_of_le_of_ne hsub.length_le fun h => hfix (hsub.eq_of_length h)
      obtain ⟨fix, h1, h2, h3⟩ := ih (prune rem) (by omega) hne
      exact ⟨fix, h1, h2, fun x hx => hsub.subset (h3 x hx)⟩

/-- A non-empty list of nodes of the graph in which every node has an unmet
dependency contains a cycle: the list is finite, so following dependencies
cannot go on without coming back. -/
theorem hasCycle_of_fixpoint {g fix : List BuildNode} (hne : fix ≠ [])
    (hfix : prune fix = fix) (hsub : ∀ x ∈ fix, x ∈ g) : HasCycle g := by
  by_contra hno
  have next : ∀ x ∈ fix, ∃ m ∈ fix, dependsOn g x m := by
    intro x hx
    have hx2 : unmet fix x = true := List.filter_eq_self.mp hfix x hx
    unfold unmet at hx2
    obtain ⟨m, hm, hmx⟩ := List.any_eq_true.mp hx2
    exact ⟨m, hm, hsub x hx, hsub m hm, of_decide_eq_true hmx⟩
  let r : {x // x ∈ fix} → {x // x ∈ fix} → Prop :=
    fun a b => Relation.TransGen (dependsOn g) b.1 a.1
  haveI : IsTrans {x // x ∈ fix} r := ⟨fun a b c hab hbc => Relation.TransGen.trans hbc hab⟩
  haveI : IsIrrefl {x // x ∈ fix} r := ⟨fun a h => hno ⟨a.1, h⟩⟩
  have wf : WellFounded r := Finite.wellFounded_of_trans_of_irrefl r
  obtain ⟨x0, hx0⟩ := List.exists_mem_of_ne_nil fix hne
  obtain ⟨m, -, hmin⟩ := wf.has_min Set.univ ⟨⟨x0, hx0⟩, trivial⟩
  obtain ⟨y, hy, hdep⟩ := next m.1 m.2
  exact hmin ⟨y, hy⟩ trivial (Relation.TransGen.single hdep)

/-- The cycle detection reports no cycle where there is none. -/
theorem hasCycle_of_detectCycle {g : List BuildNode} (h : detectCycle g = true) :
    HasCycle g := by
  unfold detectCycle at h
  have hne : pruneN g.length g ≠ [] := by
    intro hnil
    rw [hnil] at h
    cases h
  obtain ⟨fix, h1, h2, h3⟩ := exists_fixpoint g.length g le_rfl hne
  exact hasCycle_of_fixpoint h1 h2 h3

/-- The cycle detection is exact. -/
theorem detectCycle_iff (g : List BuildNode) : detectCycle g = true ↔ HasCycle g :=
  ⟨hasCycle_of_detectCycle, detectCycle_of_hasCycle⟩

/-- A merge that yields an acyclic graph is accepted by the graph builder. -/
theorem buildGraph_of_acyclic (g : List BuildNode) (r : DepfileRecord)
    (h : ¬ HasCycle (mergeDepfile g r)) : buildGraph g r = Except.ok (mergeDepfile g r) := by
  unfold buildGraph
  rw [if_neg fun hd => h (hasCycle_of_detectCycle hd)]

/-- The sample graph itself has no cycle. -/
theorem sample_acyclic : ¬ HasCycle sampleGraph := by
  intro h
  have hd := detectCycle_of_hasCycle h
  revert hd
  decide

/-- The merged sample graph has the cycle `main.o → geometry.h → main.o`. -/
theorem sample_hasCycle : HasCycle (mergeDepfile sampleGraph cyclicRecord) := by
  refine ⟨BuildNode.mk "main.o" "cc -c main.c" ["main.c", "geometry.h"] [] none, ?_⟩
  refine Relation.TransGen.head
    (b := BuildNode.mk "geometry.h" "gen geometry.def" ["geometry.def"] ["main.o"] none) ?_
    (Relation.TransGen.single ?_)
  · exact ⟨by decide, by decide, by decide⟩
  · exact ⟨by decide, by decide, by decide⟩

/-- C6: whenever merging a depfile record into the graph yields a graph with a
cycle, the graph builder fails with `CycleError`, and the build invocation ends
with that error having run no command, whatever the commands would return and
whatever the signatures are. -/
theorem cycle_aborts_before_any_command (exec : String → Nat) (sig : String → Nat)
    (g : List BuildNode) (r : DepfileRecord) (h : HasCycle (mergeDepfile g r)) :
    buildGraph g r = Except.error BuildError.CycleError ∧
      build exec sig g r = ([], Except.error BuildError.CycleError) := by
  have hb : buildGraph g r = Except.error BuildError.CycleError := by
    unfold buildGraph
    rw [detectCycle_of_hasCycle h]
    rfl
  refine ⟨hb, ?_⟩
  unfold build
  rw [hb]

/-- The sample graph has no cycle and builds with the plain record, both commands
running in dependency order; with the cyclic record the merge introduces a cycle
and the build ends in `CycleError` with no command run. -/
theorem cycle_aborts_before_any_command_witness :
    ¬ HasCycle sampleGraph ∧
      build (fun _ => 0) (fun _ => 1) sampleGraph plainRecord =
        (["gen geometry.def", "cc -c main.c"], Except.ok ()) ∧
      HasCycle (mergeDepfile sampleGraph cyclicRecord) ∧
      buildGraph sampleGraph cyclicRecord = Except.error BuildError.CycleError ∧
      build (fun _ => 0) (fun _ => 1) sampleGraph cyclicRecord =
        ([], Except.error BuildError.CycleError) :=
  ⟨sample_acyclic, by rfl, sample_hasCycle,
    cycle_aborts_before_any_command (fun _ => 0) (fun _ => 1) sampleGraph cyclicRecord
      sample_hasCycle⟩

end Orchestrator

end N2Examples
